import Mathlib

/-
Shallow embedding of the Kaizen-Labs CLI (network auto-detection, SuiNS name
resolution, account inspection, NFT inspection, meme-NFT launch workflow).
External collaborators (the RPC client, the naming-service REST API, the
image store, the compiler subprocess, the file system) are modelled as
oracle functions passed in as parameters; everything this repository itself
computes is transcribed from the source.
-/

namespace Kaizen

/-- Network identifiers (source: `type NetworkName`). -/
inductive NetworkName where
  | mainnet
  | testnet
  | devnet
  | localnet
deriving DecidableEq, Repr

/-- Per-network configuration (source: `interface NetworkConfig`). -/
structure NetworkConfig where
  url : String
  suiNsEndpoint : String
  chainId : String
deriving DecidableEq, Repr

/-- A balance entry (source: `interface Balance`). -/
structure Balance where
  coinType : String
  totalBalance : String
deriving DecidableEq, Repr

/-- Naming-service response body (source: `interface SuiNameResponse`);
`none` models an absent JSON field. -/
structure SuiNameResponse where
  address : Option String := none
  name : Option String := none
deriving DecidableEq, Repr

/-- The static `NETWORKS` table.  The mainnet/testnet/devnet fullnode URLs
come from the external SDK helper `getFullnodeUrl`, so the table is
parametrised by that collaborator; every other field is the literal from the
source. -/
def NETWORKS (fullnodeUrl : NetworkName → String) : NetworkName → NetworkConfig
  | .mainnet => ⟨fullnodeUrl .mainnet, "https://api.suins.io/mainnet", "0x1"⟩
  | .testnet => ⟨fullnodeUrl .testnet, "https://api.suins.io/testnet", "0x2"⟩
  | .devnet => ⟨fullnodeUrl .devnet, "https://api.suins.io/devnet", "0x3"⟩
  | .localnet => ⟨"http://127.0.0.1:9000", "http://localhost:3000/api", "0x4"⟩

/-- Oracle for `client.getAllBalances`: given the URL the client was bound to
and the owner address, either a balance list or a thrown error message. -/
abbrev BalanceOracle := String → String → Except String (List Balance)

/-- Oracle for the naming-service forward-lookup GET request
(`/resolve?name=...`): given the name and the network queried, either a
response body or a thrown error message. -/
abbrev NameOracle := String → NetworkName → Except String SuiNameResponse

/-- Whether one iteration of the `detectNetworkForAddress` loop matches on
network `n`: the balance call succeeds and returns a non-empty list
(source condition `balances.length > 0`). -/
def probeHit (fullnodeUrl : NetworkName → String) (bal : BalanceOracle)
    (address : String) (n : NetworkName) : Bool :=
  match bal (NETWORKS fullnodeUrl n).url address with
  | .ok balances => decide (0 < balances.length)
  | .error _ => false

/-- The candidate list of `detectNetworkForAddress`
(source: `const networksToCheck: NetworkName[] = ['mainnet', 'testnet', 'devnet']`). -/
def networksToCheck : List NetworkName := [.mainnet, .testnet, .devnet]

/-- The loop body of `detectNetworkForAddress`, transcribed from the source:
for each candidate, build a client bound to the network URL and request the
balances; return on the first success with a non-empty list; a thrown error
is swallowed (`catch ... continue`).  Besides the result the model returns
the list of networks actually queried, in order. -/
def detectGo (fullnodeUrl : NetworkName → String) (bal : BalanceOracle) (address : String) :
    List NetworkName → Except String (NetworkName × String) × List NetworkName
  | [] => (.error ("Address not found on any supported network"), [])
  | n :: rest =>
    match bal (NETWORKS fullnodeUrl n).url address with
    | .ok balances =>
      if 0 < balances.length then
        (.ok (n, (NETWORKS fullnodeUrl n).url), [n])
      else
        let r := detectGo fullnodeUrl bal address rest
        (r.1, n :: r.2)
    | .error _ =>
      let r := detectGo fullnodeUrl bal address rest
      (r.1, n :: r.2)

/-- Source function `detectNetworkForAddress`.  The returned client handle is
represented by the URL it was constructed with
(`new SuiClient({ url: NETWORKS[network].url })`). -/
def detectNetworkForAddress (fullnodeUrl : NetworkName → String) (bal : BalanceOracle)
    (address : String) : Except String (NetworkName × String) × List NetworkName :=
  detectGo fullnodeUrl bal address networksToCheck

/-- Source function `resolveSuiName`: a forward lookup on one network; an
absent or empty `address` field throws (`if (!response.data?.address)`), and
every failure is rewrapped as a "Failed to resolve name" error. -/
def resolveSuiName (lookup : NameOracle) (name : String) (network : NetworkName) :
    Except String String :=
  match lookup name network with
  | .error msg => .error ("Failed to resolve name: " ++ msg)
  | .ok resp =>
    match resp.address with
    | none => .error ("Failed to resolve name: No address returned")
    | some a =>
      if a = "" then .error ("Failed to resolve name: No address returned")
      else .ok a

/-- Whether one iteration of the `resolveSuiNameOnAllNetworks` loop returns on
network `n`: `resolveSuiName` succeeds and the address is truthy
(`if (address) return address`). -/
def resolveHit (lookup : NameOracle) (name : String) (n : NetworkName) : Bool :=
  match resolveSuiName lookup name n with
  | .ok a => a != ""
  | .error _ => false

/-- The network list of `resolveSuiNameOnAllNetworks`:
`Object.keys(NETWORKS)`, i.e. the four networks in table insertion order. -/
def networksWithSuiNS : List NetworkName := [.mainnet, .testnet, .devnet, .localnet]

/-- The loop body of `resolveSuiNameOnAllNetworks`: per network try
`resolveSuiName`; return the address if truthy; a thrown error is swallowed
(`catch ... continue`).  Also returns the list of networks tried, in order. -/
def resolveGo (lookup : NameOracle) (name : String) :
    List NetworkName → Except String String × List NetworkName
  | [] => (.error ("SuiNS name \"" ++ name ++ "\" not found on any network"), [])
  | n :: rest =>
    match resolveSuiName lookup name n with
    | .ok a =>
      if a = "" then
        let r := resolveGo lookup name rest
        (r.1, n :: r.2)
      else
        (.ok a, [n])
    | .error _ =>
      let r := resolveGo lookup name rest
      (r.1, n :: r.2)

/-- Source function `resolveSuiNameOnAllNetworks`. -/
def resolveSuiNameOnAllNetworks (lookup : NameOracle) (name : String) :
    Except String String × List NetworkName :=
  resolveGo lookup name networksWithSuiNS

/-! Generic characterisation of a first-hit scan with a queried-trace, used
to settle both multi-network loops. -/

/-- Generic first-hit scan over a candidate list: `p c = some x` means
candidate `c` matches with payload `x`; the scan returns `okf c x` for the
first match (querying no later candidate) or `err` after exhausting the
list, together with the list of candidates actually queried. -/
def probeScan {κ α β : Type} (p : κ → Option α) (err : β) (okf : κ → α → β) :
    List κ → β × List κ
  | [] => (err, [])
  | c :: rest =>
    match p c with
    | some x => (okf c x, [c])
    | none =>
      let r := probeScan p err okf rest
      (r.1, c :: r.2)

/-- Complete case analysis of `probeScan`: either some candidate matches and
the scan stops at the first one, or none does and every candidate was
queried. -/
theorem probeScan_decomp {κ α β : Type} (p : κ → Option α) (err : β) (okf : κ → α → β)
    (l : List κ) :
    (∃ pre post c x, l = pre ++ c :: post ∧ p c = some x ∧
      (∀ m ∈ pre, p m = none) ∧ probeScan p err okf l = (okf c x, pre ++ [c])) ∨
    ((∀ m ∈ l, p m = none) ∧ probeScan p err okf l = (err, l)) := by
  induction l with
  | nil => exact Or.inr ⟨by simp, rfl⟩
  | cons c rest ih =>
    cases hp : p c with
    | some x =>
      exact Or.inl ⟨[], rest, c, x, rfl, hp, by simp, by simp [probeScan, hp]⟩
    | none =>
      rcases ih with ⟨pre, post, c', x, hl, hc', hpre, heq⟩ | ⟨hall, heq⟩
      · refine Or.inl ⟨c :: pre, post, c', x, by simp [hl], hc', ?_, ?_⟩
        · intro m hm
          rcases List.mem_cons.mp hm with h | h
          · exact h ▸ hp
          · exact hpre m h
        · simp [probeScan, hp, heq]
      · refine Or.inr ⟨?_, by simp [probeScan, hp, heq]⟩
        intro m hm
        rcases List.mem_cons.mp hm with h | h
        · exact h ▸ hp
        · exact hall m h

/-- The candidate test of the detection loop, packaged for `probeScan`. -/
def detectProbe (fullnodeUrl : NetworkName → String) (bal : BalanceOracle)
    (address : String) (n : NetworkName) : Option (NetworkName × String) :=
  match bal (NETWORKS fullnodeUrl n).url address with
  | .ok balances =>
    if 0 < balances.length then some (n, (NETWORKS fullnodeUrl n).url) else none
  | .error _ => none

theorem detectGo_eq_probeScan (fullnodeUrl : NetworkName → String) (bal : BalanceOracle)
    (address : String) (l : List NetworkName) :
    detectGo fullnodeUrl bal address l =
      probeScan (detectProbe fullnodeUrl bal address)
        (.error ("Address not found on any supported network")) (fun _ x => .ok x) l := by
  induction l with
  | nil => rfl
  | cons n rest ih =>
    simp only [detectGo, probeScan, detectProbe]
    cases hb : bal (NETWORKS fullnodeUrl n).url address with
    | ok balances =>
      by_cases hl : 0 < balances.length
      · simp [hl]
      · simp [hl, ih]
    | error e => simp [ih]

theorem probeHit_eq_isSome (fullnodeUrl : NetworkName → String) (bal : BalanceOracle)
    (address : String) (n : NetworkName) :
    probeHit fullnodeUrl bal address n =
      (detectProbe fullnodeUrl bal address n).isSome := by
  unfold probeHit detectProbe
  cases bal (NETWORKS fullnodeUrl n).url address with
  | ok balances =>
    by_cases hl : 0 < balances.length <;> simp [hl]
  | error e => rfl

/-- The candidate test of the resolution loop, packaged for `probeScan`. -/
def resolveProbe (lookup : NameOracle) (name : String) (n : NetworkName) :
    Option String :=
  match resolveSuiName lookup name n with
  | .ok a => if a = "" then none else some a
  | .error _ => none

theorem resolveGo_eq_probeScan (lookup : NameOracle) (name : String)
    (l : List NetworkName) :
    resolveGo lookup name l =
      probeScan (resolveProbe lookup name)
        (.error ("SuiNS name \"" ++ name ++ "\" not found on any network"))
        (fun _ a => .ok a) l := by
  induction l with
  | nil => rfl
  | cons n rest ih =>
    simp only [resolveGo, probeScan, resolveProbe]
    cases hb : resolveSuiName lookup name n with
    | ok a =>
      by_cases ha : a = ""
      · simp [ha, ih]
      · simp [ha]
    | error e => simp [ih]

theorem resolveHit_eq_isSome (lookup : NameOracle) (name : String) (n : NetworkName) :
    resolveHit lookup name n = (resolveProbe lookup name n).isSome := by
  unfold resolveHit resolveProbe
  cases resolveSuiName lookup name n with
  | ok a => by_cases ha : a = "" <;> simp [ha]
  | error e => rfl

theorem detectProbe_some {fullnodeUrl : NetworkName → String} {bal : BalanceOracle}
    {address : String} {c n : NetworkName} {url : String}
    (h : detectProbe fullnodeUrl bal address c = some (n, url)) :
    n = c ∧ url = (NETWORKS fullnodeUrl c).url ∧
      probeHit fullnodeUrl bal address c = true := by
  rw [probeHit_eq_isSome]
  unfold detectProbe at h ⊢
  cases hb : bal (NETWORKS fullnodeUrl c).url address with
  | ok balances =>
    rw [hb] at h
    by_cases hl : 0 < balances.length
    · simp [hl] at h ⊢
      exact ⟨h.1.symm, h.2.symm⟩
    · simp [hl] at h
  | error e => rw [hb] at h; simp at h

theorem resolveProbe_some {lookup : NameOracle} {name : String} {c : NetworkName}
    {a : String} (h : resolveProbe lookup name c = some a) :
    a ≠ "" ∧ resolveSuiName lookup name c = Except.ok a ∧
      resolveHit lookup name c = true := by
  rw [resolveHit_eq_isSome]
  unfold resolveProbe at h ⊢
  cases hr : resolveSuiName lookup name c with
  | ok b =>
    rw [hr] at h
    by_cases hb : b = ""
    · simp [hb] at h
    · simp [hb] at h ⊢
      subst h
      exact ⟨hb, rfl⟩
  | error e => rw [hr] at h; simp at h

/-- C1: network detection probes mainnet, testnet, devnet in that fixed
order; it returns the identifier and bound client (URL) of the first network
whose balance query succeeds with at least one entry, querying no later
candidate; per-network failures are swallowed and the scan continues; if all
candidates miss, it fails with the "not found on any supported network"
error after probing exactly the three candidates; localnet is never
probed. -/
theorem detect_c1 (fullnodeUrl : NetworkName → String) (bal : BalanceOracle)
    (address : String) :
    networksToCheck = [NetworkName.mainnet, .testnet, .devnet] ∧
    NetworkName.localnet ∉ (detectNetworkForAddress fullnodeUrl bal address).2 ∧
    (∀ n url, (detectNetworkForAddress fullnodeUrl bal address).1 = Except.ok (n, url) →
      url = (NETWORKS fullnodeUrl n).url ∧ probeHit fullnodeUrl bal address n = true ∧
      ∃ pre post, networksToCheck = pre ++ n :: post ∧
        (detectNetworkForAddress fullnodeUrl bal address).2 = pre ++ [n] ∧
        ∀ m ∈ pre, probeHit fullnodeUrl bal address m = false) ∧
    (∀ e, (detectNetworkForAddress fullnodeUrl bal address).1 = Except.error e →
      e = "Address not found on any supported network" ∧
      (detectNetworkForAddress fullnodeUrl bal address).2 = networksToCheck ∧
      ∀ m ∈ networksToCheck, probeHit fullnodeUrl bal address m = false) := by
  have hrw : detectNetworkForAddress fullnodeUrl bal address =
      probeScan (detectProbe fullnodeUrl bal address)
        (.error ("Address not found on any supported network"))
        (fun _ x => .ok x) networksToCheck :=
    detectGo_eq_probeScan fullnodeUrl bal address networksToCheck
  rcases probeScan_decomp (detectProbe fullnodeUrl bal address)
      (Except.error ("Address not found on any supported network"))
      (fun _ x => Except.ok x) networksToCheck with
    ⟨pre, post, c, x, hl, hc, hpre, heq⟩ | ⟨hall, heq⟩
  · rw [heq] at hrw
    refine ⟨rfl, ?_, ?_, ?_⟩
    · rw [hrw]
      intro hmem
      have : NetworkName.localnet ∈ networksToCheck := by
        rw [hl]
        rcases List.mem_append.mp hmem with h | h
        · exact List.mem_append.mpr (Or.inl h)
        · simp only [List.mem_singleton] at h
          exact List.mem_append.mpr (Or.inr (h ▸ List.mem_cons_self c post))
      simp [networksToCheck] at this
    · intro n url hok
      rw [hrw] at hok
      simp only [Except.ok.injEq] at hok
      have hx : detectProbe fullnodeUrl bal address c = some (n, url) := by
        rw [hc, hok]
      obtain ⟨hnc, hurl, hhit⟩ := detectProbe_some hx
      subst hnc
      refine ⟨hurl, hhit, pre, post, hl, by rw [hrw], ?_⟩
      intro m hm
      rw [probeHit_eq_isSome, hpre m hm]
      rfl
    · intro e herr
      rw [hrw] at herr
      exact absurd herr (by simp)
  · rw [heq] at hrw
    refine ⟨rfl, ?_, ?_, ?_⟩
    · rw [hrw]
      simp [networksToCheck]
    · intro n url hok
      rw [hrw] at hok
      exact absurd hok (by simp)
    · intro e herr
      rw [hrw] at herr
      simp only [Except.error.injEq] at herr
      refine ⟨herr.symm, by rw [hrw], ?_⟩
      intro m hm
      rw [probeHit_eq_isSome, hall m hm]
      rfl

/-- C2: name resolution tries every configured network in table order, one
lookup per network, and returns the first non-empty address obtained; a
per-network lookup error never aborts the scan and never surfaces directly;
the "not found on any network" failure occurs only after all four configured
networks were tried without an address. -/
theorem resolve_c2 (lookup : NameOracle) (name : String) :
    networksWithSuiNS = [NetworkName.mainnet, .testnet, .devnet, .localnet] ∧
    (∀ a, (resolveSuiNameOnAllNetworks lookup name).1 = Except.ok a →
      a ≠ "" ∧ ∃ pre post n, networksWithSuiNS = pre ++ n :: post ∧
        resolveSuiName lookup name n = Except.ok a ∧
        (resolveSuiNameOnAllNetworks lookup name).2 = pre ++ [n] ∧
        ∀ m ∈ pre, resolveHit lookup name m = false) ∧
    (∀ e, (resolveSuiNameOnAllNetworks lookup name).1 = Except.error e →
      e = ("SuiNS name \"" ++ name ++ "\" not found on any network") ∧
      (resolveSuiNameOnAllNetworks lookup name).2 = networksWithSuiNS ∧
      ∀ m ∈ networksWithSuiNS, resolveHit lookup name m = false) := by
  have hrw : resolveSuiNameOnAllNetworks lookup name =
      probeScan (resolveProbe lookup name)
        (.error ("SuiNS name \"" ++ name ++ "\" not found on any network"))
        (fun _ a => .ok a) networksWithSuiNS :=
    resolveGo_eq_probeScan lookup name networksWithSuiNS
  rcases probeScan_decomp (resolveProbe lookup name)
      (Except.error ("SuiNS name \"" ++ name ++ "\" not found on any network"))
      (fun _ a => Except.ok a) networksWithSuiNS with
    ⟨pre, post, c, x, hl, hc, hpre, heq⟩ | ⟨hall, heq⟩
  · rw [heq] at hrw
    refine ⟨rfl, ?_, ?_⟩
    · intro a hok
      rw [hrw] at hok
      simp only [Except.ok.injEq] at hok
      subst hok
      obtain ⟨hne, hres, _⟩ := resolveProbe_some hc
      refine ⟨hne, pre, post, c, hl, hres, by rw [hrw], ?_⟩
      intro m hm
      rw [resolveHit_eq_isSome, hpre m hm]
      rfl
    · intro e herr
      rw [hrw] at herr
      exact absurd herr (by simp)
  · rw [heq] at hrw
    refine ⟨rfl, ?_, ?_⟩
    · intro a hok
      rw [hrw] at hok
      exact absurd hok (by simp)
    · intro e herr
      rw [hrw] at herr
      simp only [Except.error.injEq] at herr
      refine ⟨herr.symm, by rw [hrw], ?_⟩
      intro m hm
      rw [resolveHit_eq_isSome, hall m hm]
      rfl

/-! Concrete collaborator instantiations used to witness the scan theorems. -/

def fullnodeUrlW : NetworkName → String
  | .mainnet => "https://rpc.mainnet.example"
  | .testnet => "https://rpc.testnet.example"
  | .devnet => "https://rpc.devnet.example"
  | .localnet => "https://rpc.localnet.example"

def balHitTestnetW : BalanceOracle := fun url _ =>
  if url = "https://rpc.testnet.example" then .ok [⟨"0x2::sui::SUI", "100"⟩]
  else .error ("fetch failed")

def balMissW : BalanceOracle := fun _ _ => .ok []

def lookupHitDevnetW : NameOracle := fun _ n =>
  match n with
  | .devnet => .ok ⟨some ("0xdef"), none⟩
  | _ => .error ("endpoint unreachable")

def lookupMissW : NameOracle := fun _ _ => .error ("endpoint unreachable")

theorem detect_c1_witness :
    (probeHit fullnodeUrlW balHitTestnetW ("0xabc") NetworkName.testnet = true ∧
      NetworkName.localnet ∉ (detectNetworkForAddress fullnodeUrlW balHitTestnetW ("0xabc")).2) ∧
    (detectNetworkForAddress fullnodeUrlW balMissW ("0xabc")).2 = networksToCheck :=
  ⟨⟨((detect_c1 fullnodeUrlW balHitTestnetW ("0xabc")).2.2.1 NetworkName.testnet
      ((NETWORKS fullnodeUrlW NetworkName.testnet).url) rfl).2.1,
    (detect_c1 fullnodeUrlW balHitTestnetW ("0xabc")).2.1⟩,
    ((detect_c1 fullnodeUrlW balMissW ("0xabc")).2.2.2
      ("Address not found on any supported network") rfl).2.1⟩

theorem resolve_c2_witness :
    ("0xdef" : String) ≠ "" ∧
    (resolveSuiNameOnAllNetworks lookupMissW ("alice.sui")).2 = networksWithSuiNS :=
  ⟨((resolve_c2 lookupHitDevnetW ("alice.sui")).2.1 ("0xdef") rfl).1,
    ((resolve_c2 lookupMissW ("alice.sui")).2.2
      ("SuiNS name \"alice.sui\" not found on any network") rfl).2.1⟩

/-! Account inspection (`getAccountInfo` command action) and NFT inspection
(`getNftDetails`). -/

/-- Whether an `Except` value is a success. -/
def isOkE {ε α : Type} : Except ε α → Bool
  | .ok _ => true
  | .error _ => false

/-- Substring containment on character lists. -/
def listIncludes (pat : List Char) : List Char → Bool
  | [] => pat.isEmpty
  | c :: cs => pat.isPrefixOf (c :: cs) || listIncludes pat cs

/-- JS `String.prototype.includes`: true when `pat` occurs anywhere in `s`.
Models the check `identifier.includes(".sui")` of the command action. -/
def jsIncludes (s pat : String) : Bool := listIncludes pat.data s.data

/-- JS `String.prototype.endsWith`: true when `pat` is a suffix of `s`. -/
def jsEndsWith (s pat : String) : Bool := pat.data.isSuffixOf s.data

/-- JS `String.prototype.startsWith`: true when `pat` is a leading part of
`s` (used for the underscore filter on content field keys). -/
def jsStartsWith (s pat : String) : Bool := pat.data.isPrefixOf s.data

/-- Oracle for the naming-service reverse-lookup GET request
(`/reverse-lookup?address=...`). -/
abbrev ReverseOracle := String → NetworkName → Except String SuiNameResponse

/-- Oracle for `client.getObject`: given the URL the client is bound to and
the object id, either the serialized object data or a thrown error. -/
abbrev ObjectOracle := String → String → Except String String

/-- Source function `checkForSuiNsName`: a best-effort reverse lookup that
returns `response.data?.name || null`, and null on any thrown error. -/
def checkForSuiNsName (reverse : ReverseOracle) (address : String)
    (network : NetworkName) : Option String :=
  match reverse address network with
  | .error _ => none
  | .ok resp =>
    match resp.name with
    | some n => if n = "" then none else some n
    | none => none

/-- Which collaborators the account workflow invoked, and with what. -/
structure AccountTrace where
  resolverCalled : Bool
  detectCalledWith : Option String
  reverseCalled : Bool
deriving DecidableEq, Repr

/-- What the `getAccountInfo` action prints on success. -/
structure AccountReport where
  network : NetworkName
  address : String
  reverseLookup : Option String
  balances : List Balance
  accountObject : String
deriving DecidableEq, Repr

/-- The `getAccountInfo` command action, transcribed from the source: treat
the identifier as a SuiNS name when `identifier.includes(".sui")`, resolving
it first; then auto-detect the network; then fetch object data, balances and
the (possibly skipped) reverse lookup; any thrown error aborts with that
error.  The trace records which collaborators were reached. -/
def getAccountInfo (lookup : NameOracle) (reverse : ReverseOracle)
    (fullnodeUrl : NetworkName → String) (bal : BalanceOracle) (obj : ObjectOracle)
    (identifier : String) : Except String AccountReport × AccountTrace :=
  let isSuiNsName := jsIncludes identifier (".sui")
  let resolved : Except String String :=
    if isSuiNsName then (resolveSuiNameOnAllNetworks lookup identifier).1
    else .ok identifier
  match resolved with
  | .error e => (.error e, ⟨isSuiNsName, none, false⟩)
  | .ok address =>
    match (detectNetworkForAddress fullnodeUrl bal address).1 with
    | .error e => (.error e, ⟨isSuiNsName, some address, false⟩)
    | .ok (network, url) =>
      let reverseLookup :=
        if isSuiNsName then some identifier
        else checkForSuiNsName reverse address network
      match obj url address, bal url address with
      | .ok accountObject, .ok balances =>
        (.ok ⟨network, address, reverseLookup, balances, accountObject⟩,
          ⟨isSuiNsName, some address, !isSuiNsName⟩)
      | .error e, _ => (.error e, ⟨isSuiNsName, some address, !isSuiNsName⟩)
      | _, .error e => (.error e, ⟨isSuiNsName, some address, !isSuiNsName⟩)

/-- Display fields of an NFT object (`nftObject.data.display?.data`). -/
structure NftDisplayData where
  name : Option String := none
  description : Option String := none
  image_url : Option String := none
  creator : Option String := none
  tag : Option String := none
deriving DecidableEq, Repr

/-- Fetched NFT object data (`nftObject.data`); `contentFields` is
`content.fields` with each value already coerced to its string rendering,
`none` when the content is absent or has no `fields` member. -/
structure NftObjectData where
  type : Option String := none
  display : Option NftDisplayData := none
  contentFields : Option (List (String × String)) := none
deriving DecidableEq, Repr

/-- JS `x || d` for an optional string `x`: the default replaces both an
absent and an empty value. -/
def jsOrElse (o : Option String) (d : String) : String :=
  match o with
  | some s => if s = "" then d else s
  | none => d

/-- JS truthiness guard for conditionally printed fields
(`if (metadata.description) ...`). -/
def jsTruthy (o : Option String) : Option String :=
  match o with
  | some s => if s = "" then none else some s
  | none => none

/-- The rendered NFT details block: the five always-printed lines (with
"Not available" placeholders) and the conditionally printed parts. -/
structure NftRendered where
  name : String
  type : String
  creator : String
  tag : String
  allTimeFloorPrice : String
  description : Option String
  imageUrl : Option String
  attributes : Option (List (String × String))
deriving DecidableEq, Repr

/-- Source function `getNftDetails`: throws when the fetched object carries
no data; otherwise merges display fields, non-underscore content fields and
the best-effort marketplace floor price (absent on a failed request) into the
rendered output. -/
def getNftDetails (fetched : Option NftObjectData)
    (floor : Except String (Option String)) : Except String NftRendered :=
  match fetched with
  | none => .error ("NFT not found or data unavailable")
  | some d =>
    let metaName := d.display.bind (fun dd => dd.name)
    let metaDescription := d.display.bind (fun dd => dd.description)
    let metaImageUrl := d.display.bind (fun dd => dd.image_url)
    let metaCreator := d.display.bind (fun dd => dd.creator)
    let metaTag := d.display.bind (fun dd => dd.tag)
    let attributes := d.contentFields.map
      (fun fields => fields.filter (fun kv => !(jsStartsWith kv.1 ("_"))))
    let floorPrice : Option String :=
      match floor with
      | .ok v => v
      | .error _ => none
    .ok ⟨jsOrElse metaName ("Not available"),
      jsOrElse d.type ("Not available"),
      jsOrElse metaCreator ("Not available"),
      jsOrElse metaTag ("Not available"),
      jsOrElse floorPrice ("Not available"),
      jsTruthy metaDescription,
      jsTruthy metaImageUrl,
      attributes⟩

/-- C3 counterexample: the identifier "a.suib" does not end with ".sui", yet
the command action treats it as a name (the source tests substring
containment, `identifier.includes(".sui")`, not the suffix). -/
theorem account_c3_counterexample :
    jsIncludes ("a.suib") (".sui") = true ∧
    jsEndsWith ("a.suib") (".sui") = false ∧
    (getAccountInfo lookupMissW (fun _ _ => Except.error ("boom")) fullnodeUrlW
      balMissW (fun _ _ => Except.ok ("obj")) ("a.suib")).2.resolverCalled = true :=
  ⟨rfl, rfl, rfl⟩

/-- C3 (amended): the identifier is treated as a name — resolved via the
name resolver before network detection — exactly when it CONTAINS the
substring ".sui" (a superset of the ".sui" suffix convention); any other
identifier is passed to network detection unchanged. -/
theorem account_c3 (lookup : NameOracle) (reverse : ReverseOracle)
    (fullnodeUrl : NetworkName → String) (bal : BalanceOracle) (obj : ObjectOracle)
    (identifier : String) :
    ((getAccountInfo lookup reverse fullnodeUrl bal obj identifier).2.resolverCalled =
      jsIncludes identifier (".sui")) ∧
    (jsIncludes identifier (".sui") = false →
      (getAccountInfo lookup reverse fullnodeUrl bal obj identifier).2.detectCalledWith =
        some identifier) ∧
    (∀ a, jsIncludes identifier (".sui") = true →
      (resolveSuiNameOnAllNetworks lookup identifier).1 = Except.ok a →
      (getAccountInfo lookup reverse fullnodeUrl bal obj identifier).2.detectCalledWith =
        some a) := by
  refine ⟨?_, ?_, ?_⟩
  · unfold getAccountInfo
    cases hin : jsIncludes identifier (".sui") <;>
      simp only [hin, if_true, if_false, Bool.false_eq_true, ite_true, ite_false] <;>
      (repeat' split) <;> rfl
  · intro hin
    unfold getAccountInfo
    simp only [hin, Bool.false_eq_true, ite_false]
    (repeat' split) <;> rfl
  · intro a hin hres
    unfold getAccountInfo
    simp only [hin, ite_true, hres]
    (repeat' split) <;> rfl

/-- C4: best-effort enrichment never terminates a workflow: the reverse name
lookup returns null on any thrown error instead of propagating it, it is
skipped when the input was already a name, account inspection's success does
not depend on the reverse-lookup collaborator at all, and a marketplace
floor-price failure yields exactly the output of an absent floor price —
still a success, with only that field missing. -/
theorem enrichment_c4 :
    (∀ (reverse : ReverseOracle) (address : String) (network : NetworkName) (e : String),
      reverse address network = Except.error e →
      checkForSuiNsName reverse address network = none) ∧
    (∀ (lookup : NameOracle) (r1 r2 : ReverseOracle) (fullnodeUrl : NetworkName → String)
      (bal : BalanceOracle) (obj : ObjectOracle) (identifier : String),
      isOkE (getAccountInfo lookup r1 fullnodeUrl bal obj identifier).1 =
        isOkE (getAccountInfo lookup r2 fullnodeUrl bal obj identifier).1) ∧
    (∀ (lookup : NameOracle) (reverse : ReverseOracle) (fullnodeUrl : NetworkName → String)
      (bal : BalanceOracle) (obj : ObjectOracle) (identifier : String),
      jsIncludes identifier (".sui") = true →
      (getAccountInfo lookup reverse fullnodeUrl bal obj identifier).2.reverseCalled =
        false) ∧
    (∀ (d : NftObjectData) (e : String),
      getNftDetails (some d) (Except.error e) = getNftDetails (some d) (Except.ok none) ∧
      isOkE (getNftDetails (some d) (Except.error e)) = true) := by
  refine ⟨?_, ?_, ?_, ?_⟩
  · intro reverse address network e h
    unfold checkForSuiNsName
    rw [h]
  · intro lookup r1 r2 fullnodeUrl bal obj identifier
    unfold getAccountInfo
    cases hin : jsIncludes identifier (".sui") with
    | false =>
      simp only [hin, Bool.false_eq_true, ite_false]
      cases hdet : (detectNetworkForAddress fullnodeUrl bal identifier).1 with
      | error e => rfl
      | ok p =>
        obtain ⟨network, url⟩ := p
        dsimp only
        cases hobj : obj url identifier <;> cases hbal : bal url identifier <;> rfl
    | true =>
      simp only [hin, ite_true]
  · intro lookup reverse fullnodeUrl bal obj identifier hin
    unfold getAccountInfo
    simp only [hin, ite_true]
    (repeat' split) <;> rfl
  · intro d e
    exact ⟨rfl, rfl⟩

/-- C8: NFT inspection fails fast exactly when the fetched object carries no
data; an existing object without display data still succeeds, and the
rendered output reports "Not available" placeholders for the missing name,
creator and tag fields. -/
theorem nft_c8 :
    (∀ floor, getNftDetails none floor = Except.error ("NFT not found or data unavailable")) ∧
    (∀ d floor, isOkE (getNftDetails (some d) floor) = true) ∧
    (∀ d floor r, d.display = none → getNftDetails (some d) floor = Except.ok r →
      r.name = "Not available" ∧ r.creator = "Not available" ∧
        r.tag = "Not available") := by
  refine ⟨fun floor => rfl, fun d floor => rfl, ?_⟩
  intro d floor r hd h
  simp only [getNftDetails, hd, Option.none_bind, Except.ok.injEq] at h
  subst h
  exact ⟨rfl, rfl, rfl⟩

/-! Concrete collaborator instantiations for the inspection witnesses. -/

def revMissW : ReverseOracle := fun _ _ => .error ("endpoint unreachable")

def objW : ObjectOracle := fun _ _ => .ok ("objectdata")

def nftNoDisplayW : NftObjectData :=
  ⟨some ("0x2::kaizen::Meme"), none, some [("_id", "1"), ("rarity", "epic")]⟩

def nftRenderedW : NftRendered :=
  ⟨"Not available", "0x2::kaizen::Meme", "Not available", "Not available",
    "12", none, none, some [("rarity", "epic")]⟩

theorem account_c3_witness :
    (getAccountInfo lookupMissW revMissW fullnodeUrlW balHitTestnetW objW
      ("0xraw")).2.detectCalledWith = some ("0xraw") ∧
    (getAccountInfo lookupHitDevnetW revMissW fullnodeUrlW balHitTestnetW objW
      ("alice.sui")).2.detectCalledWith = some ("0xdef") :=
  ⟨(account_c3 lookupMissW revMissW fullnodeUrlW balHitTestnetW objW ("0xraw")).2.1 rfl,
    (account_c3 lookupHitDevnetW revMissW fullnodeUrlW balHitTestnetW objW
      ("alice.sui")).2.2 ("0xdef") rfl rfl⟩

theorem enrichment_c4_witness :
    checkForSuiNsName revMissW ("0xabc") NetworkName.mainnet = none ∧
    (getAccountInfo lookupHitDevnetW revMissW fullnodeUrlW balHitTestnetW objW
      ("alice.sui")).2.reverseCalled = false ∧
    isOkE (getNftDetails (some nftNoDisplayW) (Except.error ("marketplace down"))) = true :=
  ⟨enrichment_c4.1 revMissW ("0xabc") NetworkName.mainnet ("endpoint unreachable") rfl,
    enrichment_c4.2.2.1 lookupHitDevnetW revMissW fullnodeUrlW balHitTestnetW objW
      ("alice.sui") rfl,
    (enrichment_c4.2.2.2 nftNoDisplayW ("marketplace down")).2⟩

theorem nft_c8_witness :
    nftRenderedW.name = "Not available" ∧ nftRenderedW.creator = "Not available" ∧
      nftRenderedW.tag = "Not available" :=
  nft_c8.2.2 nftNoDisplayW (Except.ok (some ("12"))) nftRenderedW rfl rfl

/-! Launch workflow (`nftLaunch.ts`). -/

/-- Networks selectable at launch (`z.enum(['mainnet', 'testnet', 'devnet'])`);
the enum constraint is carried at the type level, mirroring the inferred TS
type of the schema, whose interactive list prompt only offers these
choices. -/
inductive LaunchNetwork where
  | mainnet
  | testnet
  | devnet
deriving DecidableEq, Repr

/-- Validated launch input (`MemeConfig = z.infer<typeof MemeSchema>`). -/
structure MemeConfig where
  name : String
  symbol : String
  description : String
  imagePath : String
  network : LaunchNetwork
  totalSupply : Int
  royaltyBps : Int
deriving DecidableEq, Repr

/-- Raw interactive answers before `MemeSchema.parseAsync`; a field with a
schema default is optional, `none` modelling an omitted answer. -/
structure RawMeme where
  name : String
  symbol : String
  description : Option String := none
  imagePath : String
  network : Option LaunchNetwork := none
  totalSupply : Int
  royaltyBps : Option Int := none
deriving DecidableEq, Repr

/-- The symbol pattern of `MemeSchema` (`/^[A-Z]{3,5}$/`): three to five
characters, all uppercase ASCII letters. -/
def symbolRegexOk (s : String) : Bool :=
  decide (3 ≤ s.length) && decide (s.length ≤ 5) &&
    s.data.all (fun c => decide ('A' ≤ c) && decide (c ≤ 'Z'))

/-- Source schema `MemeSchema` parsed as a unit (`MemeSchema.parseAsync`):
defaults are applied to omitted fields, then every field constraint is
checked — name `min(1)`, the symbol pattern, the on-disk existence
refinement of `imagePath` (the file-system collaborator `fileExists`),
`totalSupply` in `[1, 10000]`, `royaltyBps` in `[0, 100]`. -/
def memeSchemaParse (fileExists : String → Bool) (r : RawMeme) : Option MemeConfig :=
  let description := r.description.getD ("A meme NFT collection")
  let network := r.network.getD LaunchNetwork.testnet
  let royaltyBps := r.royaltyBps.getD 5
  if decide (1 ≤ r.name.length) && symbolRegexOk r.symbol && fileExists r.imagePath &&
      decide (1 ≤ r.totalSupply) && decide (r.totalSupply ≤ 10000) &&
      decide (0 ≤ royaltyBps) && decide (royaltyBps ≤ 100) then
    some ⟨r.name, r.symbol, description, r.imagePath, network, r.totalSupply, royaltyBps⟩
  else none

/-- Manifest template of `generateMoveFiles`, the part before the
interpolated lower-cased symbol. -/
def moveTomlPre : String := "[package]\nname = \"meme_"

/-- Manifest template of `generateMoveFiles`, the part after the
interpolated lower-cased symbol. -/
def moveTomlPost : String := "\"\nversion = \"0.1.0\"\n\n[dependencies]\nSui = \x7b git = \"https://github.com/MystenLabs/sui.git\", subdir = \"crates/sui-framework/packages/sui-framework\", rev = \"framework/testnet\" \x7d"

/-- The `Move.toml` content written by `generateMoveFiles`. -/
def moveToml (symbol : String) : String :=
  moveTomlPre ++ symbol.toLower ++ moveTomlPost

/-- Fixed segments of the `generateMoveCode` template, in order, between the
interpolated fields (lower-cased symbol, symbol, name, description, image
URL, royalty, symbol, symbol). -/
def memeMoveSeg0 : String := "module meme_"

def memeMoveSeg1 : String := "::meme \x7b\n    use sui::transfer;\n    use sui::object::\x7bSelf, UID\x7d;\n    use sui::tx_context::TxContext;\n    use sui::display;\n    use sui::url::Url;\n    use sui::string::String;\n\n    struct "

def memeMoveSeg2 : String := " has key, store \x7b\n        id: UID,\n        name: String,\n        description: String,\n        image_url: Url,\n    \x7d\n\n    public fun init(otw: &mut TxContext) \x7b\n        let display = display::new_with_fields(\n            &mut display::new(),\n            vector[\n                (\"name\", \""

def memeMoveSeg3 : String := "\"),\n                (\"description\", \""

def memeMoveSeg4 : String := "\"),\n                (\"image_url\", \""

def memeMoveSeg5 : String := "\"),\n                (\"creator\", \"Meme Creator\"),\n                (\"royalty\", \""

def memeMoveSeg6 : String := "\"),\n                (\"symbol\", \""

def memeMoveSeg7 : String := "\")\n            ]\n        );\n        display::update_version(&mut display);\n        transfer::public_transfer(display, tx_context::sender(otw));\n    \x7d\n\n    public entry fun mint(\n        name: String,\n        description: String,\n        image_url: Url,\n        recipient: address,\n        ctx: &mut TxContext\n    ) \x7b\n        let meme = "

def memeMoveSeg8 : String := " \x7b\n            id: object::new(ctx),\n            name,\n            description,\n            image_url\n        \x7d;\n        transfer::public_transfer(meme, recipient);\n    \x7d\n\x7d"

/-- Source function `generateMoveCode`: the contract source rendered from
the template, splicing the user-supplied fields in verbatim, with no
escaping. -/
def generateMoveCode (c : MemeConfig) (imageUrl : String) : String :=
  memeMoveSeg0 ++ c.symbol.toLower ++ memeMoveSeg1 ++ c.symbol ++ memeMoveSeg2 ++
    c.name ++ memeMoveSeg3 ++ c.description ++ memeMoveSeg4 ++ imageUrl ++
    memeMoveSeg5 ++ toString c.royaltyBps ++ memeMoveSeg6 ++ c.symbol ++
    memeMoveSeg7 ++ c.symbol ++ memeMoveSeg8

/-- Observable side effects of the launch workflow, in execution order. -/
inductive LaunchEvent where
  | mkdirEv (path : String)
  | uploadEv (path : String)
  | writeFileEv (path : String) (content : String)
  | buildEv (dir : String)
  | deployEv (dir : String) (network : LaunchNetwork)
deriving DecidableEq, Repr

/-- Oracle for `uploadToWalrus` (file read plus storage-API POST): either
the public URL or a thrown error. -/
abbrev UploadOracle := String → Except String String

/-- Oracle for the `sui move build` subprocess in the project directory. -/
abbrev BuildOracle := String → Except String Unit

/-- Oracle for `deployCollection` (keypair from the environment, bytecode
dump, publish transaction): either the report or a thrown error. -/
abbrev DeployOracle := String → LaunchNetwork → Except String String

/-- Source function `launchMeme`, transcribed step for step: whole-record
validation, project directory `meme-<lowercased symbol>` under the working
directory, image upload (fatal on failure), `generateMoveFiles` (the
`sources` directory, `Move.toml`, `sources/meme.move`), the build
subprocess, then deployment.  The event list records the side effects
actually performed, in order. -/
def launchMeme (fileExists : String → Bool) (upload : UploadOracle)
    (build : BuildOracle) (deploy : DeployOracle) (cwd : String)
    (rawAnswers : RawMeme) : Except String Unit × List LaunchEvent :=
  match memeSchemaParse fileExists rawAnswers with
  | none => (.error ("validation failed"), [])
  | some answers =>
    let projectDir := cwd ++ "/meme-" ++ answers.symbol.toLower
    match upload answers.imagePath with
    | .error e => (.error e, [.mkdirEv projectDir, .uploadEv answers.imagePath])
    | .ok imageUrl =>
      let written := [LaunchEvent.mkdirEv projectDir, .uploadEv answers.imagePath,
        .mkdirEv (projectDir ++ "/sources"),
        .writeFileEv (projectDir ++ "/Move.toml") (moveToml answers.symbol),
        .writeFileEv (projectDir ++ "/sources/meme.move")
          (generateMoveCode answers imageUrl)]
      match build projectDir with
      | .error e => (.error e, written ++ [.buildEv projectDir])
      | .ok _ =>
        match deploy projectDir answers.network with
        | .error e =>
          (.error e, written ++ [.buildEv projectDir, .deployEv projectDir answers.network])
        | .ok _ =>
          (.ok (), written ++ [.buildEv projectDir, .deployEv projectDir answers.network])

theorem one_le_length_iff (s : String) : 1 ≤ s.length ↔ s ≠ "" := by
  rw [Nat.one_le_iff_ne_zero]
  constructor
  · intro h he
    exact h (by rw [he]; rfl)
  · intro h hz
    refine h (String.ext ?_)
    have : s.data.length = 0 := hz
    simpa using List.length_eq_zero.mp this

theorem memeSchemaParse_isSome (fileExists : String → Bool) (r : RawMeme) :
    (memeSchemaParse fileExists r).isSome =
      (decide (1 ≤ r.name.length) && symbolRegexOk r.symbol && fileExists r.imagePath &&
        decide (1 ≤ r.totalSupply) && decide (r.totalSupply ≤ 10000) &&
        decide (0 ≤ r.royaltyBps.getD 5) && decide (r.royaltyBps.getD 5 ≤ 100)) := by
  unfold memeSchemaParse
  dsimp only
  split
  · next h => rw [h]; rfl
  · next h => simp only [Bool.not_eq_true] at h; rw [h]; rfl

/-- C5: launch input validation accepts a record exactly when the name is
non-empty, the symbol matches the 3-to-5-uppercase-letter pattern (so
"btc" and "toolongname" are rejected and "DOGE" accepted), the total
supply lies in [1, 10000], the royalty (after its default) lies in
[0, 100], and the image path exists on disk; and the whole record is
re-validated as a unit before the workflow performs any side effect. -/
theorem validation_c5 :
    (∀ (fileExists : String → Bool) (r : RawMeme),
      (memeSchemaParse fileExists r).isSome = true ↔
        (r.name ≠ "" ∧ symbolRegexOk r.symbol = true ∧
          1 ≤ r.totalSupply ∧ r.totalSupply ≤ 10000 ∧
          0 ≤ r.royaltyBps.getD 5 ∧ r.royaltyBps.getD 5 ≤ 100 ∧
          fileExists r.imagePath = true)) ∧
    symbolRegexOk ("btc") = false ∧
    symbolRegexOk ("toolongname") = false ∧
    symbolRegexOk ("DOGE") = true ∧
    (∀ (fileExists : String → Bool) (upload : UploadOracle) (build : BuildOracle)
      (deploy : DeployOracle) (cwd : String) (r : RawMeme),
      memeSchemaParse fileExists r = none →
      launchMeme fileExists upload build deploy cwd r =
        (Except.error ("validation failed"), [])) := by
  refine ⟨?_, rfl, rfl, rfl, ?_⟩
  · intro fileExists r
    rw [memeSchemaParse_isSome]
    simp only [Bool.and_eq_true, decide_eq_true_eq, one_le_length_iff]
    tauto
  · intro fileExists upload build deploy cwd r h
    unfold launchMeme
    rw [h]

/-- C9: omitted optional launch fields receive the schema defaults —
description "A meme NFT collection", network testnet, royaltyBps 5 — each
default satisfies its own field constraint (5 lies in [0, 100]), and a
record completed by defaults still passes whole-record validation. -/
theorem defaults_c9 (fileExists : String → Bool) (name symbol imagePath : String)
    (supply : Int) (h1 : name ≠ "") (h2 : symbolRegexOk symbol = true)
    (h3 : fileExists imagePath = true) (h4 : 1 ≤ supply) (h5 : supply ≤ 10000) :
    memeSchemaParse fileExists ⟨name, symbol, none, imagePath, none, supply, none⟩ =
      some ⟨name, symbol, "A meme NFT collection", imagePath, LaunchNetwork.testnet,
        supply, 5⟩ ∧
    ((0 : Int) ≤ 5 ∧ (5 : Int) ≤ 100) := by
  have hname : 1 ≤ name.length := (one_le_length_iff name).mpr h1
  refine ⟨?_, by decide⟩
  unfold memeSchemaParse
  simp [hname, h2, h3, h4, h5]

/-- C6: if the image upload fails, the launch workflow aborts fatally with
that error right there: the manifest and the contract source are never
written, and neither the build subprocess nor the deploy step is ever
invoked. -/
theorem upload_abort_c6 (fileExists : String → Bool) (upload : UploadOracle)
    (build : BuildOracle) (deploy : DeployOracle) (cwd : String) (r : RawMeme)
    (cfg : MemeConfig) (e : String)
    (hparse : memeSchemaParse fileExists r = some cfg)
    (hup : upload cfg.imagePath = Except.error e) :
    launchMeme fileExists upload build deploy cwd r =
      (Except.error e,
        [LaunchEvent.mkdirEv (cwd ++ "/meme-" ++ cfg.symbol.toLower),
          LaunchEvent.uploadEv cfg.imagePath]) ∧
    (∀ p c, LaunchEvent.writeFileEv p c ∉
      (launchMeme fileExists upload build deploy cwd r).2) ∧
    (∀ p, LaunchEvent.buildEv p ∉
      (launchMeme fileExists upload build deploy cwd r).2) ∧
    (∀ p n, LaunchEvent.deployEv p n ∉
      (launchMeme fileExists upload build deploy cwd r).2) := by
  have hmain : launchMeme fileExists upload build deploy cwd r =
      (Except.error e,
        [LaunchEvent.mkdirEv (cwd ++ "/meme-" ++ cfg.symbol.toLower),
          LaunchEvent.uploadEv cfg.imagePath]) := by
    unfold launchMeme
    rw [hparse]
    dsimp only
    rw [hup]
  refine ⟨hmain, ?_, ?_, ?_⟩
  · intro p c
    rw [hmain]
    simp
  · intro p
    rw [hmain]
    simp
  · intro p n
    rw [hmain]
    simp

/-- C7: with validation passed and the upload and build collaborators
succeeding, the launch workflow creates the project directory named
`meme-<lowercased symbol>`, writes a manifest referencing the lower-cased
symbol and one contract source file embedding the supplied name,
description and uploaded image URL verbatim. -/
theorem launch_files_c7 (fileExists : String → Bool) (upload : UploadOracle)
    (build : BuildOracle) (deploy : DeployOracle) (cwd : String) (r : RawMeme)
    (cfg : MemeConfig) (url : String)
    (hparse : memeSchemaParse fileExists r = some cfg)
    (hup : upload cfg.imagePath = Except.ok url)
    (hbuild : build (cwd ++ "/meme-" ++ cfg.symbol.toLower) = Except.ok ()) :
    LaunchEvent.mkdirEv (cwd ++ "/meme-" ++ cfg.symbol.toLower) ∈
      (launchMeme fileExists upload build deploy cwd r).2 ∧
    LaunchEvent.writeFileEv (cwd ++ "/meme-" ++ cfg.symbol.toLower ++ "/Move.toml")
      (moveToml cfg.symbol) ∈ (launchMeme fileExists upload build deploy cwd r).2 ∧
    LaunchEvent.writeFileEv (cwd ++ "/meme-" ++ cfg.symbol.toLower ++ "/sources/meme.move")
      (generateMoveCode cfg url) ∈ (launchMeme fileExists upload build deploy cwd r).2 ∧
    (∃ x y, moveToml cfg.symbol = x ++ cfg.symbol.toLower ++ y) ∧
    (∃ x y, generateMoveCode cfg url = x ++ cfg.name ++ y) ∧
    (∃ x y, generateMoveCode cfg url = x ++ cfg.description ++ y) ∧
    (∃ x y, generateMoveCode cfg url = x ++ url ++ y) := by
  have htrace : ∀ ev, ev ∈ [LaunchEvent.mkdirEv (cwd ++ "/meme-" ++ cfg.symbol.toLower),
      .uploadEv cfg.imagePath,
      .mkdirEv (cwd ++ "/meme-" ++ cfg.symbol.toLower ++ "/sources"),
      .writeFileEv (cwd ++ "/meme-" ++ cfg.symbol.toLower ++ "/Move.toml")
        (moveToml cfg.symbol),
      .writeFileEv (cwd ++ "/meme-" ++ cfg.symbol.toLower ++ "/sources/meme.move")
        (generateMoveCode cfg url)] →
      ev ∈ (launchMeme fileExists upload build deploy cwd r).2 := by
    intro ev hev
    unfold launchMeme
    rw [hparse]
    dsimp only
    rw [hup, hbuild]
    cases hdep : deploy (cwd ++ "/meme-" ++ cfg.symbol.toLower) cfg.network <;>
      simp only [List.mem_append] <;> exact Or.inl hev
  refine ⟨htrace _ (by simp), htrace _ (by simp), htrace _ (by simp), ?_, ?_, ?_, ?_⟩
  · exact ⟨moveTomlPre, moveTomlPost, rfl⟩
  · refine ⟨memeMoveSeg0 ++ cfg.symbol.toLower ++ memeMoveSeg1 ++ cfg.symbol ++ memeMoveSeg2,
      memeMoveSeg3 ++ cfg.description ++ memeMoveSeg4 ++ url ++ memeMoveSeg5 ++
        toString cfg.royaltyBps ++ memeMoveSeg6 ++ cfg.symbol ++ memeMoveSeg7 ++
        cfg.symbol ++ memeMoveSeg8, ?_⟩
    simp only [generateMoveCode, String.append_assoc]
  · refine ⟨memeMoveSeg0 ++ cfg.symbol.toLower ++ memeMoveSeg1 ++ cfg.symbol ++ memeMoveSeg2 ++
      cfg.name ++ memeMoveSeg3,
      memeMoveSeg4 ++ url ++ memeMoveSeg5 ++ toString cfg.royaltyBps ++ memeMoveSeg6 ++
        cfg.symbol ++ memeMoveSeg7 ++ cfg.symbol ++ memeMoveSeg8, ?_⟩
    simp only [generateMoveCode, String.append_assoc]
  · refine ⟨memeMoveSeg0 ++ cfg.symbol.toLower ++ memeMoveSeg1 ++ cfg.symbol ++ memeMoveSeg2 ++
      cfg.name ++ memeMoveSeg3 ++ cfg.description ++ memeMoveSeg4,
      memeMoveSeg5 ++ toString cfg.royaltyBps ++ memeMoveSeg6 ++ cfg.symbol ++
        memeMoveSeg7 ++ cfg.symbol ++ memeMoveSeg8, ?_⟩
    simp only [generateMoveCode, String.append_assoc]

/-! Concrete collaborator instantiations for the launch witnesses. -/

def fsAllW : String → Bool := fun _ => true

def rawW : RawMeme := ⟨"Doge Meme", "DOGE", none, "./meme.png", none, 1000, none⟩

def cfgW : MemeConfig :=
  ⟨"Doge Meme", "DOGE", "A meme NFT collection", "./meme.png",
    LaunchNetwork.testnet, 1000, 5⟩

def uploadFailW : UploadOracle := fun _ => .error ("upload failed")

def uploadOkW : UploadOracle := fun _ => .ok ("https://walrus.example/img.png")

def buildOkW : BuildOracle := fun _ => .ok ()

def deployOkW : DeployOracle := fun _ _ => .ok ("0xpkg")

theorem validation_c5_witness :
    (memeSchemaParse fsAllW rawW).isSome = true ∧
    launchMeme fsAllW uploadOkW buildOkW deployOkW ("/home/u")
      ⟨"", "DOGE", none, "./meme.png", none, 1000, none⟩ =
      (Except.error ("validation failed"), []) :=
  ⟨(validation_c5.1 fsAllW rawW).mpr
      ⟨by decide, rfl, by decide, by decide, by decide, by decide, rfl⟩,
    validation_c5.2.2.2.2 fsAllW uploadOkW buildOkW deployOkW ("/home/u")
      ⟨"", "DOGE", none, "./meme.png", none, 1000, none⟩ rfl⟩

theorem defaults_c9_witness :
    memeSchemaParse fsAllW rawW = some cfgW :=
  (defaults_c9 fsAllW ("Doge Meme") ("DOGE") ("./meme.png") 1000
    (by decide) rfl rfl (by decide) (by decide)).1

theorem upload_abort_c6_witness :
    launchMeme fsAllW uploadFailW buildOkW deployOkW ("/home/u") rawW =
      (Except.error ("upload failed"),
        [LaunchEvent.mkdirEv ("/home/u" ++ "/meme-" ++ cfgW.symbol.toLower),
          LaunchEvent.uploadEv cfgW.imagePath]) ∧
    LaunchEvent.buildEv ("/home/u/meme-doge") ∉
      (launchMeme fsAllW uploadFailW buildOkW deployOkW ("/home/u") rawW).2 :=
  ⟨(upload_abort_c6 fsAllW uploadFailW buildOkW deployOkW ("/home/u") rawW cfgW
      ("upload failed") rfl rfl).1,
    (upload_abort_c6 fsAllW uploadFailW buildOkW deployOkW ("/home/u") rawW cfgW
      ("upload failed") rfl rfl).2.2.1 ("/home/u/meme-doge")⟩

theorem launch_files_c7_witness :
    LaunchEvent.writeFileEv ("/home/u" ++ "/meme-" ++ cfgW.symbol.toLower ++ "/Move.toml")
      (moveToml cfgW.symbol) ∈
      (launchMeme fsAllW uploadOkW buildOkW deployOkW ("/home/u") rawW).2 ∧
    (∃ x y, generateMoveCode cfgW ("https://walrus.example/img.png") =
      x ++ cfgW.name ++ y) :=
  ⟨(launch_files_c7 fsAllW uploadOkW buildOkW deployOkW ("/home/u") rawW cfgW
      ("https://walrus.example/img.png") rfl rfl rfl).2.1,
    (launch_files_c7 fsAllW uploadOkW buildOkW deployOkW ("/home/u") rawW cfgW
      ("https://walrus.example/img.png") rfl rfl rfl).2.2.2.2.1⟩

/-- C10: the resolution scan iterates all four configured networks in table
order, mainnet, testnet, devnet, localnet — so localnet is included in name
resolution — while balance-based detection iterates only the three-element
candidate list that excludes localnet. -/
theorem networks_c10 :
    networksWithSuiNS = [NetworkName.mainnet, .testnet, .devnet, .localnet] ∧
    NetworkName.localnet ∈ networksWithSuiNS ∧
    networksToCheck = [NetworkName.mainnet, .testnet, .devnet] ∧
    NetworkName.localnet ∉ networksToCheck ∧
    (resolveSuiNameOnAllNetworks lookupMissW ("bob.sui")).2 =
      [NetworkName.mainnet, .testnet, .devnet, .localnet] :=
  ⟨rfl, by simp [networksWithSuiNS], rfl, by simp [networksToCheck], rfl⟩

end Kaizen
